import Mathlib

/-!
# Verification of the rtc signaling client

A shallow embedding of the signaling-message protocol and client logic from
`src/SignalingProtocol.cpp`, `src/SignalingClient.cpp` and `src/main.cpp`,
with theorems settling the specification's claims about them.

The wire format is modelled at the JSON-tree level: `cJSON_Parse` of the text
produced by `cJSON_Print` recovers the same tree (a property of the external
cJSON library), so encoding is a function to a `Json` tree and decoding
consumes an `Option Json`, where `none` stands for text that is not valid
JSON.  cJSON objects are ordered lists of key/value pairs (duplicate keys
possible; `cJSON_GetObjectItemCaseSensitive` returns the first match).
-/

/-- A cJSON tree.  Objects keep insertion order; lookups take the first
matching key, as `cJSON_GetObjectItemCaseSensitive` does. -/
inductive Json where
  | null : Json
  | bool (b : Bool) : Json
  | num (n : Int) : Json
  | str (s : String) : Json
  | arr (items : List Json) : Json
  | obj (fields : List (String × Json)) : Json

/-- First field of a cJSON object list whose key matches (object iteration
order), as `cJSON_GetObjectItemCaseSensitive` walks the child list. -/
def lookupField : List (String × Json) → String → Option Json
  | [], _ => none
  | (k, v) :: rest, key => if k = key then some v else lookupField rest key

/-- `cJSON_GetObjectItemCaseSensitive(root, key)`: `none` when the tree is not
an object or has no field with that key. -/
def jsonLookup : Json → String → Option Json
  | Json.obj fields, key => lookupField fields key
  | _, _ => none

/-- The `SignalingMessageType` enum from `SignalingProtocol.h`. -/
inductive SignalingMessageType where
  | REGISTER | REQUEST | RESPONSE | OFFER | ANSWER | ICE | HEARTBEAT
  | ERROR | DISCONNECT | STATUS | CONFIG_UPDATE | STREAM_INFO | LOG | DIAGNOSTICS
deriving DecidableEq, Repr

/-- `signalingMessageTypeToString` from `SignalingProtocol.cpp`. -/
def signalingMessageTypeToString : SignalingMessageType → String
  | .REGISTER => "REGISTER"
  | .REQUEST => "REQUEST"
  | .RESPONSE => "RESPONSE"
  | .OFFER => "OFFER"
  | .ANSWER => "ANSWER"
  | .ICE => "ICE"
  | .HEARTBEAT => "HEARTBEAT"
  | .ERROR => "ERROR"
  | .DISCONNECT => "DISCONNECT"
  | .STATUS => "STATUS"
  | .CONFIG_UPDATE => "CONFIG_UPDATE"
  | .STREAM_INFO => "STREAM_INFO"
  | .LOG => "LOG"
  | .DIAGNOSTICS => "DIAGNOSTICS"

/-- `stringToSignalingMessageType` from `SignalingProtocol.cpp`; `none` models
the `std::invalid_argument` throw on an unrecognized string. -/
def stringToSignalingMessageType (typeStr : String) : Option SignalingMessageType :=
  if typeStr = "REGISTER" then some .REGISTER
  else if typeStr = "REQUEST" then some .REQUEST
  else if typeStr = "RESPONSE" then some .RESPONSE
  else if typeStr = "OFFER" then some .OFFER
  else if typeStr = "ANSWER" then some .ANSWER
  else if typeStr = "ICE" then some .ICE
  else if typeStr = "HEARTBEAT" then some .HEARTBEAT
  else if typeStr = "ERROR" then some .ERROR
  else if typeStr = "DISCONNECT" then some .DISCONNECT
  else if typeStr = "STATUS" then some .STATUS
  else if typeStr = "CONFIG_UPDATE" then some .CONFIG_UPDATE
  else if typeStr = "STREAM_INFO" then some .STREAM_INFO
  else if typeStr = "LOG" then some .LOG
  else if typeStr = "DIAGNOSTICS" then some .DIAGNOSTICS
  else none

/-- `metadata[key] = value` on a `std::map<std::string, std::string>`: keys
kept unique and in increasing order; an existing key is overwritten. -/
def mdInsert (k v : String) : List (String × String) → List (String × String)
  | [] => [(k, v)]
  | (k', v') :: rest =>
    if k < k' then (k, v) :: (k', v') :: rest
    else if k = k' then (k, v) :: rest
    else (k', v') :: mdInsert k v rest

/-- The `SignalingMessage` value, with the payload as an owned tree value.
`metadata` models the `std::map`: a list sorted strictly by key. -/
structure SignalingMessage where
  type : SignalingMessageType
  id : String
  payload : Option Json
  metadata : List (String × String)

/-- The invariant every `std::map<std::string, std::string>` satisfies:
entries strictly increasing by key (so keys are unique). -/
def metadataSorted (md : List (String × String)) : Prop :=
  md.Pairwise (fun a b => a.1 < b.1)

/-- `SignalingMessage::serialize` from `SignalingProtocol.cpp`, at tree level:
builds the root object with `type`, `id`, the payload duplicate when present,
and the metadata object when the map is non-empty. -/
def SignalingMessage.serialize (m : SignalingMessage) : Json :=
  Json.obj
    ([("type", Json.str (signalingMessageTypeToString m.type)),
      ("id", Json.str m.id)]
     ++ (match m.payload with
         | some p => [("payload", p)]
         | none => [])
     ++ (if m.metadata.isEmpty then []
         else [("metadata", Json.obj (m.metadata.map fun kv => (kv.1, Json.str kv.2)))]))

/-- The exceptions `SignalingMessage::deserialize` can throw. -/
inductive DecodeError where
  | parseError
  | badType
  | unknownType (s : String)
  | badId
deriving DecidableEq, Repr

/-- The `what()` strings of the exceptions thrown on the decode path. -/
def DecodeError.message : DecodeError → String
  | .parseError => "Failed to parse JSON"
  | .badType => "Missing or invalid message type"
  | .unknownType s => "Unknown message type: " ++ s
  | .badId => "Missing or invalid message ID"

/-- The fold `cJSON_ArrayForEach` performs over the metadata object: every
string-valued entry is passed to `addMetadata` (map assignment), non-string
entries are skipped. -/
def metadataOfFields (fields : List (String × Json)) : List (String × String) :=
  fields.foldl
    (fun acc kv =>
      match kv.2 with
      | Json.str v => mdInsert kv.1 v acc
      | _ => acc)
    []

/-- `SignalingMessage::deserialize` from `SignalingProtocol.cpp`.  The input
`none` stands for text `cJSON_Parse` rejects.  `type` must be a string naming
one of the 14 enum values, `id` must be a string; payload is optional
(duplicated when the key is present), metadata is read only when it is an
object, keeping string-valued entries. -/
def SignalingMessage.deserialize (wire : Option Json) :
    Except DecodeError SignalingMessage :=
  match wire with
  | none => .error .parseError
  | some root =>
    match jsonLookup root "type" with
    | some (Json.str typeStr) =>
      match stringToSignalingMessageType typeStr with
      | none => .error (.unknownType typeStr)
      | some t =>
        match jsonLookup root "id" with
        | some (Json.str idStr) =>
          .ok
            { type := t
              id := idStr
              payload := jsonLookup root "payload"
              metadata :=
                match jsonLookup root "metadata" with
                | some (Json.obj fields) => metadataOfFields fields
                | _ => [] }
        | _ => .error .badId
    | _ => .error .badType

/-- `SignalingMessage::validate` from `SignalingProtocol.cpp`. -/
def SignalingMessage.validate (m : SignalingMessage) : Bool :=
  if m.id.isEmpty then false
  else
    match m.type with
    | .REGISTER => m.payload.isSome
    | .REQUEST => m.payload.isSome
    | .OFFER | .ANSWER =>
      match m.payload with
      | none => false
      | some p =>
        match jsonLookup p "sdp" with
        | some (Json.str _) => true
        | _ => false
    | .ICE =>
      match m.payload with
      | none => false
      | some p =>
        match jsonLookup p "candidate" with
        | some (Json.str _) => true
        | _ => false
    | .HEARTBEAT => true
    | .ERROR => m.payload.isSome
    | _ => true

/-! ## The client (`src/SignalingClient.cpp`)

`lws_client_connect_via_info` and `lws_write` are external library calls;
their results enter the model as parameters.  Printing a tree to wire text
(`cJSON_Print`) is likewise external and enters `sendMessage` as a function
parameter `printJson`. -/

/-- The `connected` flag of `SignalingClient` (an `std::atomic<bool>`). -/
structure ConnState where
  connected : Bool
deriving DecidableEq, Repr

/-- `SignalingClient::connect`: returns `true` at once when already
connected; otherwise calls `lws_client_connect_via_info` (its success is the
`transportAccepts` input), returns `false` when it yields no connection, and
otherwise sets `connected` and returns `true`.  The pair is (new state,
return value). -/
def SignalingClient.connect (st : ConnState) (transportAccepts : Bool) :
    ConnState × Bool :=
  if st.connected then (st, true)
  else if transportAccepts then ({ st with connected := true }, true)
  else (st, false)

/-- The exceptions `SignalingClient::sendMessage` can throw. -/
inductive SendError where
  | notConnected
  | sendIncomplete
deriving DecidableEq, Repr

/-- The implicit conversion of the `int` return of `lws_write` to `size_t`
that the comparison `n < serializedMsg.length()` performs: value modulo
2^64. -/
def intToSizeT (n : Int) : Nat := (n % (2 : Int) ^ 64).toNat

/-- `SignalingClient::sendMessage`.  `printJson` is `cJSON_Print`
(external); `writeResult` is the `int` that `lws_write` returns.  The second
component records the frames handed to the transport: empty when the guard
throws before any write, the serialized text once `lws_write` is called.
The comparison `n < serializedMsg.length()` is between `int` and `size_t`,
so `n` is converted to `size_t` first. -/
def SignalingClient.sendMessage (printJson : Json → String)
    (st : ConnState) (msg : SignalingMessage) (writeResult : Int) :
    Except SendError Unit × List String :=
  if !st.connected then (.error .notConnected, [])
  else
    let text := printJson msg.serialize
    if intToSizeT writeResult < text.length then (.error .sendIncomplete, [text])
    else (.ok (), [text])

/-- What one inbound frame produced: delivery to the registered callback
(identified by a tag), a push onto the fallback queue, or a drop with only a
log line. -/
inductive DispatchResult where
  | delivered (handler : Nat) (m : SignalingMessage)
  | queued (m : SignalingMessage)
  | droppedLogged (e : DecodeError)

/-- The message-handling state of `SignalingClient`: the registered callback
(`messageCallback`, `none` when unset, otherwise a tag identifying it), the
fallback FIFO `incomingMessages`, and the stderr log. -/
structure DispatchState where
  handler : Option Nat
  queue : List SignalingMessage
  log : List String

/-- `SignalingClient::setMessageCallback`: replaces the callback under the
mutex, touching nothing else. -/
def SignalingClient.setMessageCallback (st : DispatchState) (cb : Nat) :
    DispatchState :=
  { st with handler := some cb }

/-- `SignalingClient::processIncomingMessage`: deserializes the frame; on
success invokes the callback when one is set and otherwise pushes onto the
queue; a deserialization exception is caught and only logged.  The function
is total: no exception escapes it. -/
def SignalingClient.processIncomingMessage (st : DispatchState)
    (raw : Option Json) : DispatchState × DispatchResult :=
  match SignalingMessage.deserialize raw with
  | .error e =>
    ({ st with log := st.log ++ ["Message deserialization error: " ++ e.message] },
     .droppedLogged e)
  | .ok m =>
    match st.handler with
    | some h => (st, .delivered h m)
    | none => ({ st with queue := st.queue ++ [m] }, .queued m)

/-! ## Heap model for payload ownership

`payload` in the source is a raw `cJSON*`; copy/move and the accessors
manage it with `cJSON_Duplicate`/`cJSON_Delete`.  The heap maps addresses to
whole trees; `alloc` returns a fresh address, `mutate` rewrites the tree a
live address holds, `free` is `cJSON_Delete`. -/

/-- Allocated cJSON trees: `next` is the next fresh address, `cells` the
live (address, tree) pairs. -/
structure Heap where
  next : Nat
  cells : List (Nat × Json)

/-- The tree at an address, first match. -/
def lookupCell : List (Nat × Json) → Nat → Option Json
  | [], _ => none
  | (b, j) :: rest, a => if b = a then some j else lookupCell rest a

def Heap.lookup (h : Heap) (a : Nat) : Option Json :=
  lookupCell h.cells a

/-- Allocation at a fresh address. -/
def Heap.alloc (h : Heap) (j : Json) : Nat × Heap :=
  (h.next, { next := h.next + 1, cells := (h.next, j) :: h.cells })

/-- Replace the tree stored at an address, cell by cell. -/
def mutateCells : List (Nat × Json) → Nat → Json → List (Nat × Json)
  | [], _, _ => []
  | (b, v) :: rest, a, j =>
    if b = a then (a, j) :: mutateCells rest a j
    else (b, v) :: mutateCells rest a j

/-- In-place mutation of the tree a live address holds. -/
def Heap.mutate (h : Heap) (a : Nat) (j : Json) : Heap :=
  { h with cells := mutateCells h.cells a j }

/-- Remove every cell at an address. -/
def removeCells : List (Nat × Json) → Nat → List (Nat × Json)
  | [], _ => []
  | (b, v) :: rest, a =>
    if b = a then removeCells rest a
    else (b, v) :: removeCells rest a

/-- `cJSON_Delete`: the address stops being live. -/
def Heap.free (h : Heap) (a : Nat) : Heap :=
  { h with cells := removeCells h.cells a }

/-- Every live address is below `next` (true of every heap built by
`alloc`), so a fresh allocation never aliases a live address. -/
def Heap.wfB (h : Heap) : Bool :=
  h.cells.all fun c => c.1 < h.next

/-- A `SignalingMessage` whose payload is a raw pointer into the heap, as in
the source (`cJSON* payload`). -/
structure MsgH where
  type : SignalingMessageType
  id : String
  payload : Option Nat
  metadata : List (String × String)

/-- The copy constructor `SignalingMessage(const SignalingMessage&)`: type,
id and metadata are copied; the payload is deep-copied with
`cJSON_Duplicate(other.payload, 1)` into fresh memory when present. -/
def copyMsg (h : Heap) (m : MsgH) : Heap × MsgH :=
  match m.payload with
  | none => (h, { m with payload := none })
  | some a =>
    match h.lookup a with
    | none => (h, { m with payload := none })
    | some j =>
      let (a2, h2) := h.alloc j
      (h2, { m with payload := some a2 })

/-- The move constructor `SignalingMessage(SignalingMessage&&)`: the
destination takes the payload pointer itself (no copy) and the source's
payload is nulled.  Returns (destination, source after the move). -/
def moveMsg (m : MsgH) : MsgH × MsgH :=
  (m, { m with payload := none })

/-- `SignalingMessage::setPayload`: frees the existing payload, then stores
`cJSON_Duplicate(newPayload, 1)` — a deep copy, so the caller keeps
ownership of the argument tree. -/
def MsgH.setPayload (h : Heap) (m : MsgH) (newPayload : Option Nat) :
    Heap × MsgH :=
  let h1 := match m.payload with
            | some old => h.free old
            | none => h
  match newPayload with
  | none => (h1, { m with payload := none })
  | some a =>
    match h1.lookup a with
    | none => (h1, { m with payload := none })
    | some j =>
      let (a2, h2) := h1.alloc j
      (h2, { m with payload := some a2 })

/-- `SignalingMessage::getPayload`: returns `cJSON_Duplicate(payload, 1)`, a
fresh deep copy, or a null pointer when the payload is absent. -/
def MsgH.getPayload (h : Heap) (m : MsgH) : Heap × Option Nat :=
  match m.payload with
  | none => (h, none)
  | some a =>
    match h.lookup a with
    | none => (h, none)
    | some j =>
      let (a2, h2) := h.alloc j
      (h2, some a2)

/-! ## Helper lemmas -/

/-- The enum-to-string map is inverted by the string-to-enum map. -/
theorem stringToType_typeToString (t : SignalingMessageType) :
    stringToSignalingMessageType (signalingMessageTypeToString t) = some t := by
  cases t <;> rfl

/-- Inserting a key above every key of a sorted association list appends. -/
theorem mdInsert_of_forall_lt (k v : String) (l : List (String × String))
    (hl : ∀ e ∈ l, e.1 < k) : mdInsert k v l = l ++ [(k, v)] := by
  induction l with
  | nil => rfl
  | cons e rest ih =>
    obtain ⟨k1, v1⟩ := e
    have hk1 : k1 < k := hl (k1, v1) (by simp)
    rw [mdInsert, if_neg (lt_asymm hk1), if_neg (ne_of_gt hk1)]
    rw [ih fun e he => hl e (by simp [he])]
    simp

/-- Folding map-assignment over strictly sorted string entries rebuilds the
list on top of any accumulator whose keys all lie below it. -/
theorem foldl_mdInsert_sorted (l acc : List (String × String))
    (hl : l.Pairwise (fun a b => a.1 < b.1))
    (hsep : ∀ e ∈ acc, ∀ e2 ∈ l, e.1 < e2.1) :
    (l.map fun kv => (kv.1, Json.str kv.2)).foldl
        (fun acc kv =>
          match kv.2 with
          | Json.str v => mdInsert kv.1 v acc
          | _ => acc)
        acc = acc ++ l := by
  induction l generalizing acc with
  | nil => simp
  | cons e rest ih =>
    obtain ⟨k0, v0⟩ := e
    rw [List.pairwise_cons] at hl
    simp only [List.map_cons, List.foldl_cons]
    have hstep : mdInsert k0 v0 acc = acc ++ [(k0, v0)] :=
      mdInsert_of_forall_lt k0 v0 acc fun e he => hsep e he (k0, v0) (by simp)
    rw [hstep, ih _ hl.2]
    · simp
    · intro e he e2 he2
      rcases List.mem_append.mp he with h1 | h1
      · exact hsep e h1 e2 (by simp [he2])
      · simp only [List.mem_singleton] at h1
        subst h1
        exact hl.1 e2 he2

/-- On strictly sorted metadata, the decode fold is the identity. -/
theorem metadataOfFields_map_str (md : List (String × String))
    (hmd : metadataSorted md) :
    metadataOfFields (md.map fun kv => (kv.1, Json.str kv.2)) = md := by
  have := foldl_mdInsert_sorted md [] hmd (by simp)
  simpa [metadataOfFields] using this

/-- Field `type` of the serialized object. -/
theorem serialize_lookup_type (m : SignalingMessage) :
    jsonLookup m.serialize "type" =
      some (Json.str (signalingMessageTypeToString m.type)) := by
  rcases m with ⟨t, i, p, md⟩
  cases p <;> cases md <;> rfl

/-- Field `id` of the serialized object. -/
theorem serialize_lookup_id (m : SignalingMessage) :
    jsonLookup m.serialize "id" = some (Json.str m.id) := by
  rcases m with ⟨t, i, p, md⟩
  cases p <;> cases md <;> rfl

/-- Field `payload` of the serialized object: present iff the message has a
payload, and then it is the payload tree itself. -/
theorem serialize_lookup_payload (m : SignalingMessage) :
    jsonLookup m.serialize "payload" = m.payload := by
  rcases m with ⟨t, i, p, md⟩
  cases p <;> cases md <;> rfl

/-- Field `metadata` of the serialized object: omitted for an empty map,
otherwise the object of string entries. -/
theorem serialize_lookup_metadata (m : SignalingMessage) :
    jsonLookup m.serialize "metadata" =
      if m.metadata.isEmpty then none
      else some (Json.obj (m.metadata.map fun kv => (kv.1, Json.str kv.2))) := by
  rcases m with ⟨t, i, p, md⟩
  cases p <;> cases md <;> rfl

/-- C1.  Round-trip law: for every message whose metadata satisfies the
`std::map` invariant (entries strictly sorted by key), deserializing the
serialized form succeeds and returns a message field-for-field equal to the
original: same type, same id, the same payload tree (or both absent), and
the same metadata key/value set (empty metadata is omitted on the wire and
decodes back to empty). -/
theorem deserialize_serialize (m : SignalingMessage)
    (hmd : metadataSorted m.metadata) :
    SignalingMessage.deserialize (some m.serialize) = .ok m := by
  rcases m with ⟨t, i, p, md⟩
  simp only [SignalingMessage.deserialize, serialize_lookup_type,
    serialize_lookup_id, serialize_lookup_payload, serialize_lookup_metadata,
    stringToType_typeToString]
  by_cases hempty : md.isEmpty
  · have hnil : md = [] := List.isEmpty_iff.mp hempty
    subst hnil
    simp
  · simp [hempty, metadataOfFields_map_str md hmd]

/-- C1 witness: the round trip evaluated on a concrete REGISTER message with
payload and metadata. -/
theorem deserialize_serialize_witness :
    SignalingMessage.deserialize
        (some (SignalingMessage.serialize
          { type := .REGISTER
            id := "dev-42"
            payload := some (Json.obj [("device_type", Json.str "camera")])
            metadata := [("stream_count", "1"), ("version", "1.0.0")] })) =
      .ok
        { type := .REGISTER
          id := "dev-42"
          payload := some (Json.obj [("device_type", Json.str "camera")])
          metadata := [("stream_count", "1"), ("version", "1.0.0")] } :=
  deserialize_serialize _ (by
    simp [metadataSorted]
    decide)

/-! ## C2: validation per type -/

/-- Spec-side reading of "the payload is present and contains a string field
named `name`". -/
def payloadHasStringField (p : Option Json) (name : String) : Bool :=
  match p with
  | none => false
  | some j =>
    match jsonLookup j name with
    | some (Json.str _) => true
    | _ => false

/-- Spec-side reading of the per-type validation rules, grouped as the claim
states them. -/
def validateSpec (m : SignalingMessage) : Bool :=
  if m.id = "" then false
  else
    match m.type with
    | .REGISTER | .REQUEST | .ERROR => m.payload.isSome
    | .OFFER | .ANSWER => payloadHasStringField m.payload "sdp"
    | .ICE => payloadHasStringField m.payload "candidate"
    | _ => true

/-- C2.  `validate()` is false whenever the id is empty, regardless of type;
for a non-empty id, REGISTER/REQUEST/ERROR require a payload of any shape,
OFFER/ANSWER require a payload with a string field `sdp`, ICE requires a
payload with a string field `candidate`, and HEARTBEAT and every remaining
type validate true with or without a payload. -/
theorem validate_per_type (m : SignalingMessage) :
    m.validate = validateSpec m := by
  rcases m with ⟨t, i, p, md⟩
  simp only [SignalingMessage.validate, validateSpec, String.isEmpty_iff]
  by_cases hi : i = ""
  · simp [hi]
  · simp only [if_neg hi]
    cases t <;> cases p <;> rfl

/-! ## C3: decode failure conditions -/

/-- The 14 enumerated type strings of the wire schema. -/
def typeNames : List String :=
  ["REGISTER", "REQUEST", "RESPONSE", "OFFER", "ANSWER", "ICE", "HEARTBEAT",
   "ERROR", "DISCONNECT", "STATUS", "CONFIG_UPDATE", "STREAM_INFO", "LOG", "DIAGNOSTICS"]

/-- The enum parse succeeds exactly on the 14 enumerated strings. -/
theorem stringToType_isSome_eq_contains (s : String) :
    (stringToSignalingMessageType s).isSome = typeNames.contains s := by
  by_cases h1 : s = "REGISTER"
  · simp [stringToSignalingMessageType, typeNames, h1]
  · by_cases h2 : s = "REQUEST"
    · simp [stringToSignalingMessageType, typeNames, h1, h2]
    · by_cases h3 : s = "RESPONSE"
      · simp [stringToSignalingMessageType, typeNames, h1, h2, h3]
      · by_cases h4 : s = "OFFER"
        · simp [stringToSignalingMessageType, typeNames, h1, h2, h3, h4]
        · by_cases h5 : s = "ANSWER"
          · simp [stringToSignalingMessageType, typeNames, h1, h2, h3, h4, h5]
          · by_cases h6 : s = "ICE"
            · simp [stringToSignalingMessageType, typeNames, h1, h2, h3, h4, h5,
                h6]
            · by_cases h7 : s = "HEARTBEAT"
              · simp [stringToSignalingMessageType, typeNames, h1, h2, h3, h4,
                  h5, h6, h7]
              · by_cases h8 : s = "ERROR"
                · simp [stringToSignalingMessageType, typeNames, h1, h2, h3, h4,
                    h5, h6, h7, h8]
                · by_cases h9 : s = "DISCONNECT"
                  · simp [stringToSignalingMessageType, typeNames, h1, h2, h3,
                      h4, h5, h6, h7, h8, h9]
                  · by_cases h10 : s = "STATUS"
                    · simp [stringToSignalingMessageType, typeNames, h1, h2, h3,
                        h4, h5, h6, h7, h8, h9, h10]
                    · by_cases h11 : s = "CONFIG_UPDATE"
                      · simp [stringToSignalingMessageType, typeNames, h1, h2,
                          h3, h4, h5, h6, h7, h8, h9, h10, h11]
                      · by_cases h12 : s = "STREAM_INFO"
                        · simp [stringToSignalingMessageType, typeNames, h1, h2,
                            h3, h4, h5, h6, h7, h8, h9, h10, h11, h12]
                        · by_cases h13 : s = "LOG"
                          · simp [stringToSignalingMessageType, typeNames, h1,
                              h2, h3, h4, h5, h6, h7, h8, h9, h10, h11, h12,
                              h13]
                          · by_cases h14 : s = "DIAGNOSTICS"
                            · simp [stringToSignalingMessageType, typeNames, h1,
                                h2, h3, h4, h5, h6, h7, h8, h9, h10, h11, h12,
                                h13, h14]
                            · simp [stringToSignalingMessageType, typeNames, h1,
                                h2, h3, h4, h5, h6, h7, h8, h9, h10, h11, h12,
                                h13, h14]

/-- Whether an `Except` result is a success. -/
def exceptOk {ε α : Type} : Except ε α → Bool
  | .ok _ => true
  | .error _ => false

/-- Spec-side reading of when decoding must be rejected: the text is not
valid JSON, or `type` is missing / not a string / not one of the 14
enumerated strings, or `id` is missing / not a string. -/
def decodeRejectsSpec (wire : Option Json) : Bool :=
  match wire with
  | none => true
  | some root =>
    (match jsonLookup root "type" with
     | some (Json.str s) => !typeNames.contains s
     | _ => true) ||
    (match jsonLookup root "id" with
     | some (Json.str _) => false
     | _ => true)

/-- C3.  For every input, decoding fails exactly when the text is not valid
JSON, the field `type` is missing / not a string / not one of the 14
enumerated strings, or the field `id` is missing / not a string; in
particular no default is ever inferred for `type` or `id` and an unknown
type string is never accepted. -/
theorem deserialize_fails_iff (wire : Option Json) :
    exceptOk (SignalingMessage.deserialize wire) = !decodeRejectsSpec wire := by
  cases wire with
  | none => rfl
  | some root =>
    cases htype : jsonLookup root "type" with
    | none =>
      simp [SignalingMessage.deserialize, decodeRejectsSpec, htype, exceptOk]
    | some tj =>
      cases tj with
      | str s =>
        cases hst : stringToSignalingMessageType s with
        | none =>
          have hc : typeNames.contains s = false := by
            have := stringToType_isSome_eq_contains s
            rw [hst] at this
            exact this.symm
          have hnot : s ∉ typeNames := by simpa using hc
          simp [SignalingMessage.deserialize, decodeRejectsSpec, htype, hst,
            hnot, exceptOk]
        | some t =>
          have hc : typeNames.contains s = true := by
            have := stringToType_isSome_eq_contains s
            rw [hst] at this
            exact this.symm
          have hmem : s ∈ typeNames := by simpa using hc
          cases hid : jsonLookup root "id" with
          | none =>
            simp [SignalingMessage.deserialize, decodeRejectsSpec, htype, hst,
              hmem, hid, exceptOk]
          | some ij =>
            cases ij <;>
              simp [SignalingMessage.deserialize, decodeRejectsSpec, htype,
                hst, hmem, hid, exceptOk]
      | null =>
        simp [SignalingMessage.deserialize, decodeRejectsSpec, htype, exceptOk]
      | bool b =>
        simp [SignalingMessage.deserialize, decodeRejectsSpec, htype, exceptOk]
      | num n =>
        simp [SignalingMessage.deserialize, decodeRejectsSpec, htype, exceptOk]
      | arr items =>
        simp [SignalingMessage.deserialize, decodeRejectsSpec, htype, exceptOk]
      | obj fields =>
        simp [SignalingMessage.deserialize, decodeRejectsSpec, htype, exceptOk]

/-! ## C4, C5: the send path -/

/-- C4.  While `isConnected()` is false, `sendMessage` raises
`NotConnectedError` and hands nothing to the transport, for every message,
every serializer and every transport behaviour. -/
theorem sendMessage_not_connected (printJson : Json → String)
    (st : ConnState) (msg : SignalingMessage) (writeResult : Int)
    (h : st.connected = false) :
    SignalingClient.sendMessage printJson st msg writeResult =
      (.error .notConnected, []) := by
  simp [SignalingClient.sendMessage, h]

/-- C4 witness: the guard evaluated on a disconnected client and a concrete
message. -/
theorem sendMessage_not_connected_witness :
    SignalingClient.sendMessage (fun _ => "") { connected := false }
        { type := .HEARTBEAT, id := "dev", payload := none, metadata := [] }
        0 =
      (.error .notConnected, []) :=
  sendMessage_not_connected _ _ _ _ rfl

/-- C5.  The source compares the signed `lws_write` return against the
unsigned message length, so a negative return (an error, zero bytes
accepted) converts to a huge `size_t` and the guard does not fire: with the
transport reporting `-1` for a 5-byte frame, `sendMessage` returns success
even though the bytes accepted are fewer than the bytes submitted — where
the claim requires `SendIncompleteError`. -/
theorem sendMessage_negative_write_reported_ok :
    SignalingClient.sendMessage (fun _ => "hello") { connected := true }
        { type := .HEARTBEAT, id := "dev", payload := none, metadata := [] }
        (-1) =
      (.ok (), ["hello"]) ∧
    (-1 : Int) < ("hello".length : Int) := by
  refine ⟨?_, by decide⟩
  rfl

/-! ## C6: connect -/

/-- C6 counterexample: starting disconnected with the transport accepting
the connection attempt, `connect` sets `connected` within the call itself —
`isConnected()` is true immediately upon return, not only later when the
ESTABLISHED callback runs. -/
theorem connect_sets_connected_synchronously :
    SignalingClient.connect { connected := false } true =
      ({ connected := true }, true) := rfl

/-- C6 (amended).  `connect` is idempotent and non-throwing: it returns true
immediately with the state unchanged when already connected, returns false
leaving the state disconnected when the transport rejects the attempt, and
on a successful attempt sets `connected` synchronously within the call, so
`isConnected()` is true immediately upon return. -/
theorem connect_behaviour (st : ConnState) (transportAccepts : Bool) :
    SignalingClient.connect st transportAccepts =
      ({ connected := st.connected || transportAccepts },
       st.connected || transportAccepts) := by
  rcases st with ⟨c⟩
  cases c <;> cases transportAccepts <;> rfl

/-! ## C8, C9: inbound dispatch -/

/-- C8.  A frame whose decode fails is dropped: the dispatch step appends
one line to the logging side channel and does nothing else — the handler
and the queue are exactly as before, no message is delivered, and the step
returns normally (it is a total function, so the failure propagates
nowhere). -/
theorem processIncomingMessage_decode_failure (st : DispatchState)
    (raw : Option Json) (e : DecodeError)
    (hdec : SignalingMessage.deserialize raw = .error e) :
    SignalingClient.processIncomingMessage st raw =
      ({ handler := st.handler
         queue := st.queue
         log := st.log ++ ["Message deserialization error: " ++ e.message] },
       .droppedLogged e) := by
  simp [SignalingClient.processIncomingMessage, hdec]

/-- C8 witness: an unparseable frame against a state with a queued message
and no handler. -/
theorem processIncomingMessage_decode_failure_witness :
    SignalingClient.processIncomingMessage
        { handler := none
          queue := [{ type := .HEARTBEAT, id := "q", payload := none,
                      metadata := [] }]
          log := [] }
        none =
      ({ handler := none
         queue := [{ type := .HEARTBEAT, id := "q", payload := none,
                     metadata := [] }]
         log := ["Message deserialization error: " ++
                   DecodeError.parseError.message] },
       .droppedLogged .parseError) :=
  processIncomingMessage_decode_failure _ _ _ rfl

/-- C9.  Registering a callback replaces any previous one while leaving the
fallback queue and the log untouched, and afterwards every decodable frame
is delivered to that callback with the state — the prior queue contents in
particular — exactly as it was, nothing being appended to the queue. -/
theorem setMessageCallback_replaces_and_takes_precedence
    (st : DispatchState) (cb : Nat) (raw : Option Json)
    (m : SignalingMessage)
    (hdec : SignalingMessage.deserialize raw = .ok m) :
    SignalingClient.setMessageCallback st cb =
      { handler := some cb, queue := st.queue, log := st.log } ∧
    SignalingClient.processIncomingMessage
        (SignalingClient.setMessageCallback st cb) raw =
      (SignalingClient.setMessageCallback st cb, .delivered cb m) := by
  constructor
  · rfl
  · simp [SignalingClient.processIncomingMessage,
      SignalingClient.setMessageCallback, hdec]

/-- C9 witness: replacing handler 0 by handler 1 with a non-empty queue,
then dispatching a decodable HEARTBEAT frame. -/
theorem setMessageCallback_replaces_and_takes_precedence_witness :
    SignalingClient.setMessageCallback
        { handler := some 0
          queue := [{ type := .ERROR, id := "old", payload := none,
                      metadata := [] }]
          log := ["l"] } 1 =
      { handler := some 1
        queue := [{ type := .ERROR, id := "old", payload := none,
                    metadata := [] }]
        log := ["l"] } ∧
    SignalingClient.processIncomingMessage
        (SignalingClient.setMessageCallback
          { handler := some 0
            queue := [{ type := .ERROR, id := "old", payload := none,
                        metadata := [] }]
            log := ["l"] } 1)
        (some (Json.obj [("type", Json.str "HEARTBEAT"), ("id", Json.str "d")])) =
      (SignalingClient.setMessageCallback
        { handler := some 0
          queue := [{ type := .ERROR, id := "old", payload := none,
                      metadata := [] }]
          log := ["l"] } 1,
       .delivered 1
         { type := .HEARTBEAT, id := "d", payload := none, metadata := [] }) :=
  setMessageCallback_replaces_and_takes_precedence _ _ _ _ rfl

/-! ## C7, C10: payload ownership -/

/-- A freshly allocated address holds the allocated tree. -/
theorem lookup_alloc_self (h : Heap) (j : Json) :
    (h.alloc j).2.lookup (h.alloc j).1 = some j := by
  show lookupCell ((h.next, j) :: h.cells) h.next = some j
  rw [lookupCell, if_pos rfl]

/-- Allocation does not disturb any other address. -/
theorem lookup_alloc_other (h : Heap) (j : Json) (a : Nat)
    (ha : a ≠ h.next) :
    (h.alloc j).2.lookup a = h.lookup a := by
  show lookupCell ((h.next, j) :: h.cells) a = lookupCell h.cells a
  rw [lookupCell, if_neg (Ne.symm ha)]

/-- Mutating one address does not disturb a different one. -/
theorem lookupCell_mutate_other (cells : List (Nat × Json)) (a b : Nat)
    (q : Json) (hab : a ≠ b) :
    lookupCell (mutateCells cells b q) a = lookupCell cells a := by
  induction cells with
  | nil => rfl
  | cons c rest ih =>
    obtain ⟨k, v⟩ := c
    by_cases hk : k = b
    · rw [mutateCells, if_pos hk, lookupCell, lookupCell,
        if_neg (Ne.symm hab), if_neg (hk ▸ Ne.symm hab), ih]
    · rw [mutateCells, if_neg hk, lookupCell, lookupCell, ih]

theorem lookup_mutate_other (h : Heap) (a b : Nat) (q : Json)
    (hab : a ≠ b) :
    (h.mutate b q).lookup a = h.lookup a :=
  lookupCell_mutate_other h.cells a b q hab

/-- Freeing one address does not disturb a different one. -/
theorem lookup_free_other (h : Heap) (a b : Nat) (hab : a ≠ b) :
    (h.free b).lookup a = h.lookup a := by
  show lookupCell (removeCells h.cells b) a = lookupCell h.cells a
  induction h.cells with
  | nil => rfl
  | cons c rest ih =>
    obtain ⟨k, v⟩ := c
    by_cases hk : k = b
    · rw [removeCells, if_pos hk, lookupCell,
        if_neg (hk ▸ Ne.symm hab), ih]
    · rw [removeCells, if_neg hk, lookupCell, lookupCell, ih]

/-- A found address is bounded by any bound on all cell addresses. -/
theorem lookupCell_lt (cells : List (Nat × Json)) (n a : Nat) (j : Json)
    (hwf : ∀ e ∈ cells, e.1 < n) (hl : lookupCell cells a = some j) :
    a < n := by
  induction cells with
  | nil => cases hl
  | cons c rest ih =>
    obtain ⟨k, v⟩ := c
    rw [lookupCell] at hl
    by_cases hk : k = a
    · exact hk ▸ hwf (k, v) (by simp)
    · exact ih (fun e he => hwf e (by simp [he])) (by rwa [if_neg hk] at hl)

/-- On a well-formed heap every live address lies below `next`. -/
theorem lookup_lt_next (h : Heap) (a : Nat) (j : Json)
    (hwf : h.wfB = true) (hl : h.lookup a = some j) : a < h.next := by
  refine lookupCell_lt h.cells h.next a j ?_ hl
  intro e he
  have := List.all_eq_true.mp hwf e he
  simpa using this

/-- C7.  Copying a message deep-copies the payload: the copy carries the
same type, id and metadata, its payload is a fresh tree structurally equal
to the original's, and mutating either tree (here with an arbitrary
replacement `q`) leaves the other unchanged.  Moving a message transfers
exactly the payload pointer to the destination — same address, same tree,
no copy — and leaves the moved-from message with an absent payload, while
type, id and metadata are carried over. -/
theorem copy_deep_copies_move_transfers (h : Heap) (m : MsgH) (a : Nat)
    (p q : Json) (hwf : h.wfB = true) (hpay : m.payload = some a)
    (hlook : h.lookup a = some p) :
    ((copyMsg h m).2.type = m.type ∧ (copyMsg h m).2.id = m.id ∧
     (copyMsg h m).2.metadata = m.metadata) ∧
    ((copyMsg h m).2.payload = some h.next ∧ h.next ≠ a ∧
     (copyMsg h m).1.lookup h.next = some p ∧
     (copyMsg h m).1.lookup a = some p ∧
     ((copyMsg h m).1.mutate a q).lookup h.next = some p ∧
     ((copyMsg h m).1.mutate h.next q).lookup a = some p) ∧
    ((moveMsg m).1.type = m.type ∧ (moveMsg m).1.id = m.id ∧
     (moveMsg m).1.metadata = m.metadata ∧
     (moveMsg m).1.payload = some a ∧
     (moveMsg m).2.payload = none) := by
  have hlt : a < h.next := lookup_lt_next h a p hwf hlook
  have hne : h.next ≠ a := fun he => absurd (he ▸ hlt) (lt_irrefl _)
  have hcopy : copyMsg h m = ((h.alloc p).2, { m with payload := some h.next }) := by
    simp [copyMsg, hpay, hlook, Heap.alloc]
  rw [hcopy]
  refine ⟨⟨rfl, rfl, rfl⟩, ⟨rfl, hne, ?_, ?_, ?_, ?_⟩,
    ⟨rfl, rfl, rfl, hpay, rfl⟩⟩
  · exact lookup_alloc_self h p
  · exact (lookup_alloc_other h p a (Ne.symm hne)).trans hlook
  · exact (lookup_mutate_other _ h.next a q hne).trans (lookup_alloc_self h p)
  · exact (lookup_mutate_other _ a h.next q (Ne.symm hne)).trans
      ((lookup_alloc_other h p a (Ne.symm hne)).trans hlook)

/-- C7 witness: copy and move evaluated on a one-cell heap and an OFFER
message owning that cell. -/
theorem copy_deep_copies_move_transfers_witness :
    (copyMsg { next := 1, cells := [(0, Json.str "s")] }
        { type := .OFFER, id := "i", payload := some 0,
          metadata := [("k", "v")] }).1.lookup 1 = some (Json.str "s") ∧
    ((copyMsg { next := 1, cells := [(0, Json.str "s")] }
        { type := .OFFER, id := "i", payload := some 0,
          metadata := [("k", "v")] }).1.mutate 0 Json.null).lookup 1 =
      some (Json.str "s") ∧
    (moveMsg { type := SignalingMessageType.OFFER, id := "i",
               payload := some 0, metadata := [("k", "v")] }).2.payload =
      none :=
  ⟨(copy_deep_copies_move_transfers
      { next := 1, cells := [(0, Json.str "s")] }
      { type := .OFFER, id := "i", payload := some 0,
        metadata := [("k", "v")] } 0 (Json.str "s")
      Json.null rfl rfl rfl).2.1.2.2.1,
   (copy_deep_copies_move_transfers
      { next := 1, cells := [(0, Json.str "s")] }
      { type := .OFFER, id := "i", payload := some 0,
        metadata := [("k", "v")] } 0 (Json.str "s")
      Json.null rfl rfl rfl).2.1.2.2.2.2.1,
   (copy_deep_copies_move_transfers
      { next := 1, cells := [(0, Json.str "s")] }
      { type := .OFFER, id := "i", payload := some 0,
        metadata := [("k", "v")] } 0 (Json.str "s")
      Json.null rfl rfl rfl).2.2.2.2.2.2⟩

/-- C10.  `setPayload` stores a deep copy of the argument tree and
`getPayload` hands out a deep copy of the stored tree: after
`setPayload(p)` the message's payload is a fresh address holding a tree
structurally equal to `p`, the caller's tree is untouched, and mutating or
freeing the caller's tree leaves the message's payload unchanged;
`getPayload` then returns another fresh address holding the same tree — so
set-then-get is structurally equal to `p` — and mutating the returned tree
leaves the message's stored payload unchanged. -/
theorem setPayload_getPayload_deep (h : Heap) (m : MsgH) (a : Nat)
    (p q : Json) (hwf : h.wfB = true) (hnopay : m.payload = none)
    (hlook : h.lookup a = some p) :
    ((MsgH.setPayload h m (some a)).2.payload = some h.next ∧ h.next ≠ a) ∧
    ((MsgH.setPayload h m (some a)).1.lookup h.next = some p ∧
     (MsgH.setPayload h m (some a)).1.lookup a = some p ∧
     (((MsgH.setPayload h m (some a)).1.mutate a q).lookup h.next = some p) ∧
     (((MsgH.setPayload h m (some a)).1.free a).lookup h.next = some p)) ∧
    ((MsgH.getPayload (MsgH.setPayload h m (some a)).1
        (MsgH.setPayload h m (some a)).2).2 = some (h.next + 1) ∧
     (MsgH.getPayload (MsgH.setPayload h m (some a)).1
        (MsgH.setPayload h m (some a)).2).1.lookup (h.next + 1) = some p ∧
     ((MsgH.getPayload (MsgH.setPayload h m (some a)).1
          (MsgH.setPayload h m (some a)).2).1.mutate (h.next + 1) q).lookup
        h.next = some p) := by
  have hlt : a < h.next := lookup_lt_next h a p hwf hlook
  have hne : h.next ≠ a := fun he => absurd (he ▸ hlt) (lt_irrefl _)
  have hS : MsgH.setPayload h m (some a) =
      ((h.alloc p).2, { m with payload := some h.next }) := by
    simp [MsgH.setPayload, hnopay, hlook, Heap.alloc]
  rw [hS]
  have hS1next : ((h.alloc p).2).next = h.next + 1 := rfl
  have hlookself : ((h.alloc p).2).lookup h.next = some p :=
    lookup_alloc_self h p
  have hlooka : ((h.alloc p).2).lookup a = some p :=
    (lookup_alloc_other h p a (Ne.symm hne)).trans hlook
  have hG : MsgH.getPayload (h.alloc p).2 { m with payload := some h.next } =
      ((((h.alloc p).2).alloc p).2, some (h.next + 1)) := by
    simp only [MsgH.getPayload, hlookself]
    rfl
  rw [hG]
  refine ⟨⟨rfl, hne⟩, ⟨hlookself, hlooka, ?_, ?_⟩, ⟨rfl, ?_, ?_⟩⟩
  · exact (lookup_mutate_other _ h.next a q hne).trans hlookself
  · exact (lookup_free_other _ h.next a hne).trans hlookself
  · exact lookup_alloc_self (h.alloc p).2 p
  · refine (lookup_mutate_other _ h.next (h.next + 1) q (by omega)).trans ?_
    exact (lookup_alloc_other (h.alloc p).2 p h.next (by
      rw [hS1next]; omega)).trans hlookself

/-- C10 witness: set-then-get evaluated on a one-cell heap and a REGISTER
message with no payload. -/
theorem setPayload_getPayload_deep_witness :
    (MsgH.setPayload { next := 1, cells := [(0, Json.str "x")] }
        { type := .REGISTER, id := "d", payload := none, metadata := [] }
        (some 0)).1.lookup 1 = some (Json.str "x") ∧
    ((MsgH.setPayload { next := 1, cells := [(0, Json.str "x")] }
        { type := .REGISTER, id := "d", payload := none, metadata := [] }
        (some 0)).1.free 0).lookup 1 = some (Json.str "x") ∧
    (MsgH.getPayload
        (MsgH.setPayload { next := 1, cells := [(0, Json.str "x")] }
          { type := .REGISTER, id := "d", payload := none, metadata := [] }
          (some 0)).1
        (MsgH.setPayload { next := 1, cells := [(0, Json.str "x")] }
          { type := .REGISTER, id := "d", payload := none, metadata := [] }
          (some 0)).2).2 = some 2 :=
  ⟨(setPayload_getPayload_deep
      { next := 1, cells := [(0, Json.str "x")] }
      { type := .REGISTER, id := "d", payload := none, metadata := [] } 0
      (Json.str "x") Json.null rfl rfl rfl).2.1.1,
   (setPayload_getPayload_deep
      { next := 1, cells := [(0, Json.str "x")] }
      { type := .REGISTER, id := "d", payload := none, metadata := [] } 0
      (Json.str "x") Json.null rfl rfl rfl).2.1.2.2.2,
   (setPayload_getPayload_deep
      { next := 1, cells := [(0, Json.str "x")] }
      { type := .REGISTER, id := "d", payload := none, metadata := [] } 0
      (Json.str "x") Json.null rfl rfl rfl).2.2.1⟩
